import Mathlib

/-!
Verification development for the Sensor Acquisition & Diagnostic Orchestrator
subsystem of the Unitree Go2 repository.  The Python sources are shallowly
embedded: byte buffers are `List Nat`, sockets and the network are explicit
environment parameters, and exceptions become explicit outcome values.
-/

/- ## PacketClassifier: `analyze_hesai_packet`
   (src/projects/lidar_testing/hesai_xt16_activation.py, lines 137-161) -/

/-- Classification reasons from the spec data model. -/
inductive Reason where
  | SignatureMatch
  | SizeHeuristic
  | NoMatch
deriving DecidableEq, Repr

/-- Classification record: a matched flag plus the reason branch. -/
structure Classification where
  matched : Bool
  reason : Reason
deriving DecidableEq, Repr

/-- The three configured magic byte sequences (`hesai_patterns`). -/
def hesaiPatterns : List (List Nat) :=
  [[0xEE, 0xFF, 0x55, 0xAA],
   [0xFF, 0xEE, 0xAA, 0x55],
   [0x55, 0xAA, 0xFF, 0xEE]]

/-- Python substring containment (`pattern in data`): the pattern occurs
contiguously somewhere in the buffer. -/
def containsSub (pattern : List Nat) : List Nat → Bool
  | [] => pattern.isEmpty
  | d :: rest => pattern.isPrefixOf (d :: rest) || containsSub pattern rest

/-- Embedding of `analyze_hesai_packet`: reject buffers under 512 bytes, then
look for any magic pattern in the first 20 bytes, then accept sizes strictly
between 1000 and 2000 bytes. -/
def analyzeHesaiPacket (data : List Nat) : Bool :=
  if data.length < 512 then false
  else if hesaiPatterns.any (fun pat => containsSub pat (data.take 20)) then true
  else if 1000 < data.length ∧ data.length < 2000 then true
  else false

/-- The same branch structure as `analyzeHesaiPacket`, with each branch
annotated by the spec's Classification reason. -/
def classifyHesaiPacket (data : List Nat) : Classification :=
  if data.length < 512 then ⟨false, Reason.NoMatch⟩
  else if hesaiPatterns.any (fun pat => containsSub pat (data.take 20)) then
    ⟨true, Reason.SignatureMatch⟩
  else if 1000 < data.length ∧ data.length < 2000 then
    ⟨true, Reason.SizeHeuristic⟩
  else ⟨false, Reason.NoMatch⟩

/-- The annotated classifier agrees with the source's boolean result. -/
theorem classify_matched_eq_analyze (data : List Nat) :
    (classifyHesaiPacket data).matched = analyzeHesaiPacket data := by
  unfold classifyHesaiPacket analyzeHesaiPacket
  split
  · rfl
  · split
    · rfl
    · split <;> rfl

/-- A pattern that starts the buffer is found by the substring scan. -/
theorem containsSub_of_isPrefixOf (p l : List Nat) (h : p.isPrefixOf l = true) :
    containsSub p l = true := by
  cases l with
  | nil =>
    cases p with
    | nil => rfl
    | cons a as => simp [List.isPrefixOf] at h
  | cons d rest => simp [containsSub, h]

/-- Every list is a prefix of itself extended by anything. -/
theorem isPrefixOf_append_self (p t : List Nat) : p.isPrefixOf (p ++ t) = true := by
  induction p with
  | nil => simp
  | cons a as ih => simp [List.isPrefixOf, ih]

/-- Taking past a left factor splits across the append. -/
theorem take_append_of_length_le (p t : List Nat) (n : Nat) (h : p.length ≤ n) :
    (p ++ t).take n = p ++ t.take (n - p.length) := by
  induction p generalizing n with
  | nil => simp
  | cons a as ih =>
    cases n with
    | zero => simp at h
    | succ m =>
      simp only [List.cons_append, List.take_succ_cons, List.length_cons,
        Nat.succ_sub_succ]
      rw [ih m (Nat.le_of_succ_le_succ h)]

/-- C3: every buffer shorter than the 512-byte minimum viable size is
classified NoMatch with matched = false, regardless of content. -/
theorem short_buffer_noMatch (data : List Nat) (h : data.length < 512) :
    classifyHesaiPacket data = ⟨false, Reason.NoMatch⟩ := by
  unfold classifyHesaiPacket
  rw [if_pos h]

/-- C3 witness: a concrete 10-byte buffer is classified NoMatch. -/
theorem short_buffer_noMatch_witness :
    (List.replicate 10 0xAB).length < 512 ∧
      classifyHesaiPacket (List.replicate 10 0xAB) = ⟨false, Reason.NoMatch⟩ :=
  ⟨by decide, short_buffer_noMatch (List.replicate 10 0xAB) (by decide)⟩

/-- C2 counterexample: the configured magic pattern followed by no trailing
bytes is 4 bytes long, so the length gate fires first and the classifier
answers NoMatch, not SignatureMatch. -/
theorem magic_alone_not_signatureMatch :
    [0xEE, 0xFF, 0x55, 0xAA] ∈ hesaiPatterns ∧
      classifyHesaiPacket ([0xEE, 0xFF, 0x55, 0xAA] ++ ([] : List Nat)) =
        ⟨false, Reason.NoMatch⟩ := by
  exact ⟨by decide, by decide⟩

/-- C2 (amended): prepending a configured magic pattern to trailing bytes
yields SignatureMatch provided the whole buffer reaches the 512-byte
minimum viable size. -/
theorem magic_buffer_signatureMatch (p t : List Nat) (hp : p ∈ hesaiPatterns)
    (hlen : 512 ≤ (p ++ t).length) :
    classifyHesaiPacket (p ++ t) = ⟨true, Reason.SignatureMatch⟩ := by
  have hp4 : p.length = 4 := by
    simp only [hesaiPatterns, List.mem_cons, List.not_mem_nil, or_false] at hp
    rcases hp with rfl | rfl | rfl <;> rfl
  have htake : (p ++ t).take 20 = p ++ t.take 16 := by
    rw [take_append_of_length_le p t 20 (by omega), hp4]
  have hsub : containsSub p ((p ++ t).take 20) = true := by
    rw [htake]
    exact containsSub_of_isPrefixOf _ _ (isPrefixOf_append_self p (t.take 16))
  unfold classifyHesaiPacket
  rw [if_neg (Nat.not_lt.mpr hlen),
    if_pos (List.any_eq_true.mpr ⟨p, hp, hsub⟩)]

/-- C2 witness: the first magic pattern plus 508 filler bytes reaches 512
bytes and is classified SignatureMatch. -/
theorem magic_buffer_signatureMatch_witness :
    classifyHesaiPacket ([0xEE, 0xFF, 0x55, 0xAA] ++ List.replicate 508 0) =
      ⟨true, Reason.SignatureMatch⟩ :=
  magic_buffer_signatureMatch [0xEE, 0xFF, 0x55, 0xAA] (List.replicate 508 0)
    (by decide) (by norm_num [List.length_append, List.length_replicate])

/-- Helper: the head window of the C4 counterexample buffer. -/
theorem take20_counterexample :
    (([0xEE, 0xFF] ++ List.replicate 1398 0).take 20)
      = [0xEE, 0xFF] ++ List.replicate 18 0 := by
  rw [take_append_of_length_le _ _ 20 (by decide)]
  norm_num [List.take_replicate]

/-- Helper: length of the C4 counterexample buffer. -/
theorem length_counterexample :
    ([0xEE, 0xFF] ++ List.replicate 1398 0).length = 1400 := by
  norm_num [List.length_append, List.length_replicate]

/-- C4 counterexample: a 1400-byte buffer that begins 0xEE 0xFF but carries
no full 4-byte magic in its header window is matched only by the size
heuristic, so its reason is SizeHeuristic rather than SignatureMatch. -/
theorem ee_ff_1400_not_signature :
    ([0xEE, 0xFF] ++ List.replicate 1398 0).length = 1400 ∧
      ([0xEE, 0xFF] ++ List.replicate 1398 0).take 2 = [0xEE, 0xFF] ∧
      classifyHesaiPacket ([0xEE, 0xFF] ++ List.replicate 1398 0) =
        ⟨true, Reason.SizeHeuristic⟩ ∧
      Reason.SizeHeuristic ≠ Reason.SignatureMatch := by
  refine ⟨length_counterexample, rfl, ?_, by decide⟩
  unfold classifyHesaiPacket
  rw [length_counterexample, take20_counterexample]
  rw [if_neg (by norm_num)]
  rw [if_neg (by decide), if_pos (by norm_num)]

/-- C4 (amended): every 1400-byte buffer whose first two bytes are 0xEE 0xFF
is classified matched = true, with reason SignatureMatch when some configured
magic occurs in the first 20 bytes and SizeHeuristic otherwise. -/
theorem buffer_1400_matched (d : List Nat) (hlen : d.length = 1400)
    (_hhead : d.take 2 = [0xEE, 0xFF]) :
    (classifyHesaiPacket d).matched = true ∧
      ((hesaiPatterns.any fun pat => containsSub pat (d.take 20)) = true →
        classifyHesaiPacket d = ⟨true, Reason.SignatureMatch⟩) ∧
      ((hesaiPatterns.any fun pat => containsSub pat (d.take 20)) = false →
        classifyHesaiPacket d = ⟨true, Reason.SizeHeuristic⟩) := by
  have h1 : ¬ d.length < 512 := by omega
  have h2 : 1000 < d.length ∧ d.length < 2000 := by omega
  unfold classifyHesaiPacket
  rw [if_neg h1]
  by_cases hany : (hesaiPatterns.any fun pat => containsSub pat (d.take 20)) = true
  · rw [if_pos hany]
    exact ⟨rfl, fun _ => rfl, fun hf => absurd hany (by simp [hf])⟩
  · rw [if_neg hany, if_pos h2]
    exact ⟨rfl, fun ht => absurd ht hany, fun _ => rfl⟩

/-- C4 witness: the amended statement evaluated at the 1400-byte buffer
starting 0xEE 0xFF with zero filler, whose header window holds no magic, so
the otherwise-branch assigns SizeHeuristic. -/
theorem buffer_1400_matched_witness :
    (classifyHesaiPacket ([0xEE, 0xFF] ++ List.replicate 1398 0)).matched = true ∧
      classifyHesaiPacket ([0xEE, 0xFF] ++ List.replicate 1398 0) =
        ⟨true, Reason.SizeHeuristic⟩ :=
  ⟨(buffer_1400_matched ([0xEE, 0xFF] ++ List.replicate 1398 0)
      (by norm_num [List.length_append, List.length_replicate]) (by decide)).1,
    (buffer_1400_matched ([0xEE, 0xFF] ++ List.replicate 1398 0)
      (by norm_num [List.length_append, List.length_replicate]) (by decide)).2.2
      (by rw [take20_counterexample]; decide)⟩

/-- C9: when no configured magic occurs in the first 20 bytes, the boolean
classifier accepts exactly the buffers whose length lies strictly between
1000 and 2000; the 512-byte minimum alone never produces a match. -/
theorem no_magic_size_window (d : List Nat)
    (h : ∀ p ∈ hesaiPatterns, containsSub p (d.take 20) = false) :
    (analyzeHesaiPacket d = true ↔ 1000 < d.length ∧ d.length < 2000) := by
  have hany : ¬ (hesaiPatterns.any fun pat => containsSub pat (d.take 20)) = true := by
    simp only [List.any_eq_true, not_exists]
    intro p hp
    rw [h p hp.1] at hp
    exact absurd hp.2 (by decide)
  unfold analyzeHesaiPacket
  by_cases h1 : d.length < 512
  · rw [if_pos h1]
    constructor
    · intro hf
      exact absurd hf (by simp)
    · intro hc
      omega
  · rw [if_neg h1, if_neg hany]
    by_cases h2 : 1000 < d.length ∧ d.length < 2000
    · rw [if_pos h2]
      exact ⟨fun _ => h2, fun _ => rfl⟩
    · rw [if_neg h2]
      exact ⟨fun hf => absurd hf (by simp), fun hc => absurd hc h2⟩

/-- C9 witness: a 1500-byte buffer of filler bytes contains no magic and is
accepted purely on size. -/
theorem no_magic_size_window_witness :
    analyzeHesaiPacket (List.replicate 1500 1) = true ↔
      1000 < (List.replicate 1500 1).length ∧
        (List.replicate 1500 1).length < 2000 :=
  no_magic_size_window (List.replicate 1500 1) (by decide)

/- ## AcquisitionStrategyLadder: `main`
   (src/go2_slam_bridge/enhanced_lidar_network_sniffer.py, lines 127-148) -/

/-- Outcome of invoking one capture method inside the ladder loop: the method
returned True, returned False with no data, or raised an exception that the
loop caught before moving on. -/
inductive MethodResult where
  | success
  | noData
  | error
deriving DecidableEq, Repr

/-- Embedding of the ladder loop: run each method in order, record its
outcome, and break out of the loop as soon as one method returns True.
Failures and caught exceptions both fall through to the next method. -/
def runLadder : List MethodResult → List MethodResult
  | [] => []
  | r :: rest =>
    match r with
    | MethodResult.success => [MethodResult.success]
    | MethodResult.noData => MethodResult.noData :: runLadder rest
    | MethodResult.error => MethodResult.error :: runLadder rest

/-- C1: if the first k-1 methods do not succeed and method k succeeds, the
ladder records exactly k attempts and never runs any later method. -/
theorem ladder_first_success_wins (pre post : List MethodResult)
    (h : ∀ r ∈ pre, r ≠ MethodResult.success) :
    runLadder (pre ++ MethodResult.success :: post) =
        pre ++ [MethodResult.success] ∧
      (runLadder (pre ++ MethodResult.success :: post)).length = pre.length + 1 := by
  have hmain : runLadder (pre ++ MethodResult.success :: post) =
      pre ++ [MethodResult.success] := by
    induction pre with
    | nil => rfl
    | cons r rest ih =>
      have hr : r ≠ MethodResult.success := h r (List.mem_cons_self r rest)
      have hrest : ∀ x ∈ rest, x ≠ MethodResult.success :=
        fun x hx => h x (List.mem_cons_of_mem r hx)
      cases r with
      | success => exact absurd rfl hr
      | noData =>
        simp only [List.cons_append, runLadder, List.append_eq, ih hrest]
      | error =>
        simp only [List.cons_append, runLadder, List.append_eq, ih hrest]
  refine ⟨hmain, ?_⟩
  rw [hmain]
  simp

/-- C1 witness: two failing methods followed by a success give exactly three
recorded attempts; the trailing methods never run. -/
theorem ladder_first_success_wins_witness :
    runLadder ([MethodResult.noData, MethodResult.error] ++
        MethodResult.success :: [MethodResult.success, MethodResult.noData]) =
      [MethodResult.noData, MethodResult.error] ++ [MethodResult.success] ∧
    (runLadder ([MethodResult.noData, MethodResult.error] ++
        MethodResult.success :: [MethodResult.success, MethodResult.noData])).length
      = [MethodResult.noData, MethodResult.error].length + 1 :=
  ladder_first_success_wins [MethodResult.noData, MethodResult.error]
    [MethodResult.success, MethodResult.noData] (by decide)

/- ## Raw-capture method: `method3_raw_socket`
   (src/go2_slam_bridge/enhanced_lidar_network_sniffer.py, lines 61-91) -/

/-- Capture outcomes from the spec data model. -/
inductive CaptureOutcome where
  | Success
  | Timeout
  | PermissionDenied
  | PortInUse
  | Error
deriving DecidableEq, Repr

/-- The privileged receive loop of `method3_raw_socket`: for each raw packet,
unpack the 20-byte IP header (protocol is byte 9) and, for UDP (protocol 17),
the UDP header (destination port is bytes 22-23); return Success on the first
packet addressed to port 2368.  A packet too short for the header unpack
raises struct.error, which the method's handler reports as a failure.  An
exhausted wait window is the socket timeout, reported by breaking out with no
data. -/
def method3Loop : List (List Nat) → CaptureOutcome
  | [] => CaptureOutcome.Timeout
  | pkt :: rest =>
    if pkt.length < 20 then CaptureOutcome.Error
    else if pkt.getD 9 0 = 17 then
      if pkt.length < 28 then CaptureOutcome.Error
      else if pkt.getD 22 0 * 256 + pkt.getD 23 0 = 2368 then
        CaptureOutcome.Success
      else method3Loop rest
    else method3Loop rest

/-- Embedding of `method3_raw_socket`: creating the raw socket requires
elevated privilege; without it the constructor raises PermissionError, which
the method's exception handler reports, so the loop never runs. -/
def method3RawSocket (privileged : Bool) (incoming : List (List Nat)) :
    CaptureOutcome :=
  if privileged then method3Loop incoming else CaptureOutcome.PermissionDenied

/-- C5: an unprivileged raw-capture run always reports PermissionDenied, and
that outcome is distinct from the Timeout a privileged run reports when no
data arrives inside the wait window. -/
theorem raw_socket_permission_distinct (incoming : List (List Nat)) :
    method3RawSocket false incoming = CaptureOutcome.PermissionDenied ∧
      method3RawSocket true [] = CaptureOutcome.Timeout ∧
      CaptureOutcome.PermissionDenied ≠ CaptureOutcome.Timeout :=
  ⟨rfl, rfl, by decide⟩

/- ## CommandChannel: `send_activation_commands`
   (src/projects/lidar_testing/hesai_xt16_activation.py, lines 163-205) -/

/-- What the network does with one sent command: a response datagram arrives,
the response wait times out, or the send itself raises a socket error (caught
by the per-command handler). -/
inductive SendBehavior where
  | reply (payload : List Nat)
  | timeout
  | sendError

/-- Result record for one command, per the spec data model. -/
structure CommandResult where
  command : List Nat
  responded : Bool
  responsePayload : Option (List Nat)
deriving DecidableEq, Repr

/-- One iteration of the command loop: send the command, wait briefly for a
response; a timeout or a caught send error both leave the command recorded as
unanswered. -/
def sendOneCommand (cmd : List Nat) : SendBehavior → CommandResult
  | SendBehavior.reply p => ⟨cmd, true, some p⟩
  | SendBehavior.timeout => ⟨cmd, false, none⟩
  | SendBehavior.sendError => ⟨cmd, false, none⟩

/-- Embedding of `send_activation_commands`: if the control socket cannot be
created the outer handler returns False with nothing recorded; otherwise the
loop runs over every command (per-command errors are caught inside the loop)
and the function returns True. -/
def sendActivationCommands (socketOk : Bool) (behavior : Nat → SendBehavior)
    (commands : List (List Nat)) : Bool × List CommandResult :=
  if socketOk then
    (true, commands.enum.map fun pr => sendOneCommand pr.2 (behavior pr.1))
  else
    (false, [])

/-- Helper: a command-loop iteration records exactly the command it sent. -/
theorem sendOneCommand_command (cmd : List Nat) (b : SendBehavior) :
    (sendOneCommand cmd b).command = cmd := by
  cases b <;> rfl

/-- C6: with the control socket open, every command in the list gets exactly
one CommandResult, in order, regardless of per-command send errors; against a
non-responsive endpoint every recorded result is unanswered, and the
embedding is a total function, so no exception escapes the channel. -/
theorem command_channel_records_all (behavior : Nat → SendBehavior)
    (commands : List (List Nat)) :
    ((sendActivationCommands true behavior commands).2).length = commands.length ∧
      ((sendActivationCommands true behavior commands).2).map
          CommandResult.command = commands ∧
      ∀ r ∈ (sendActivationCommands true (fun _ => SendBehavior.timeout)
          commands).2, r.responded = false := by
  refine ⟨?_, ?_, ?_⟩
  · simp [sendActivationCommands]
  · simp only [sendActivationCommands, if_pos, List.map_map]
    have : (CommandResult.command ∘ fun pr : Nat × List Nat =>
        sendOneCommand pr.2 (behavior pr.1)) = Prod.snd := by
      funext pr
      exact sendOneCommand_command pr.2 (behavior pr.1)
    rw [this, List.enum_map_snd]
  · intro r hr
    simp only [sendActivationCommands, if_pos, List.mem_map] at hr
    obtain ⟨pr, _, hpr⟩ := hr
    rw [← hpr]
    rfl

/-- C10: the boolean returned by the activation sender is True whenever the
control socket opens, even when every per-command send fails and nothing ever
responds; it reports only that the send loop ran. -/
theorem activation_true_despite_failures (behavior : Nat → SendBehavior)
    (commands : List (List Nat)) :
    (sendActivationCommands true behavior commands).1 = true ∧
      ∀ r ∈ (sendActivationCommands true (fun _ => SendBehavior.sendError)
          commands).2, r.responded = false ∧ r.responsePayload = none := by
  refine ⟨rfl, ?_⟩
  intro r hr
  simp only [sendActivationCommands, if_pos, List.mem_map] at hr
  obtain ⟨pr, _, hpr⟩ := hr
  rw [← hpr]
  exact ⟨rfl, rfl⟩

/- ## NetworkScanner: `scan_for_lidar` and `try_hesai_broadcast_discovery`
   (src/projects/lidar_testing/hesai_xt16_activation.py, lines 77-104;
    src/projects/lidar_testing/hesai_network_config.py, lines 69-113) -/

/-- The candidate address list `possible_ips`. -/
def possibleIps : List String :=
  ["192.168.1.201", "192.168.123.201", "192.168.0.201", "10.5.5.200"]

/-- Embedding of `scan_for_lidar`: ping each candidate once with a bounded
wait and keep the ones that answered; a ping failure or exception just leaves
that candidate out.  An empty result is returned, not raised. -/
def scanForLidar (pingOk : String → Bool) : List String :=
  possibleIps.filter pingOk

/-- What one broadcast probe observes: the send raised and was caught, the
response wait timed out, or a reply datagram arrived from some source. -/
inductive BroadcastResult where
  | sendFailed
  | noReply
  | reply (src : String) (payload : List Nat)

/-- The broadcast address list of `try_hesai_broadcast_discovery`. -/
def broadcastAddresses : List String :=
  ["255.255.255.255", "192.168.1.255", "192.168.123.255", "192.168.0.255"]

/-- The loop body of `try_hesai_broadcast_discovery`: send the discovery
datagram to each broadcast address in turn; on the first reply, return the
replying source address; failed sends and timeouts move on. -/
def broadcastLoop (net : String → BroadcastResult) : List String → Option String
  | [] => none
  | a :: rest =>
    match net a with
    | BroadcastResult.reply src _ => some src
    | BroadcastResult.sendFailed => broadcastLoop net rest
    | BroadcastResult.noReply => broadcastLoop net rest

/-- Embedding of `try_hesai_broadcast_discovery` over its configured
broadcast address list. -/
def tryHesaiBroadcastDiscovery (net : String → BroadcastResult) : Option String :=
  broadcastLoop net broadcastAddresses

/-- Discovery sequencing of `hesai_network_config.main`: use the direct scan
result if there is one, otherwise fall back to broadcast discovery; a double
miss yields none, not an error. -/
def networkConfigDiscovery (directScan : Option String)
    (net : String → BroadcastResult) : Option String :=
  match directScan with
  | some ip => some ip
  | none => tryHesaiBroadcastDiscovery net

/-- C7: when no candidate answers the direct probe the scan returns the empty
set; discovery then falls back to broadcast, the first replying source
address becomes the discovered endpoint, and if no broadcast address draws a
reply either, discovery reports none instead of raising. -/
theorem scanner_broadcast_fallback (pingOk : String → Bool)
    (net : String → BroadcastResult) :
    ((∀ ip ∈ possibleIps, pingOk ip = false) → scanForLidar pingOk = []) ∧
      networkConfigDiscovery none net = broadcastLoop net broadcastAddresses ∧
      (∀ pre a rest src payload,
        (∀ b ∈ pre, ∀ s q, net b ≠ BroadcastResult.reply s q) →
        net a = BroadcastResult.reply src payload →
        broadcastLoop net (pre ++ a :: rest) = some src) ∧
      ((∀ b ∈ broadcastAddresses, ∀ s q, net b ≠ BroadcastResult.reply s q) →
        networkConfigDiscovery none net = none) := by
  have hfirst : ∀ pre a rest src payload,
      (∀ b ∈ pre, ∀ s q, net b ≠ BroadcastResult.reply s q) →
      net a = BroadcastResult.reply src payload →
      broadcastLoop net (pre ++ a :: rest) = some src := by
    intro pre
    induction pre with
    | nil =>
      intro a rest src payload _ ha
      simp only [List.nil_append, broadcastLoop, ha]
    | cons b bs ih =>
      intro a rest src payload hall ha
      have hb : ∀ s q, net b ≠ BroadcastResult.reply s q :=
        hall b (List.mem_cons_self b bs)
      have hbs : ∀ x ∈ bs, ∀ s q, net x ≠ BroadcastResult.reply s q :=
        fun x hx => hall x (List.mem_cons_of_mem b hx)
      have := ih a rest src payload hbs ha
      simp only [List.cons_append, broadcastLoop]
      cases hnb : net b with
      | reply s q => exact absurd hnb (hb s q)
      | sendFailed => simpa [List.append_eq] using this
      | noReply => simpa [List.append_eq] using this
  have hnone : ∀ l, (∀ b ∈ l, ∀ s q, net b ≠ BroadcastResult.reply s q) →
      broadcastLoop net l = none := by
    intro l
    induction l with
    | nil => intro _; rfl
    | cons b bs ih =>
      intro hall
      have hb : ∀ s q, net b ≠ BroadcastResult.reply s q :=
        hall b (List.mem_cons_self b bs)
      have hbs : ∀ x ∈ bs, ∀ s q, net x ≠ BroadcastResult.reply s q :=
        fun x hx => hall x (List.mem_cons_of_mem b hx)
      simp only [broadcastLoop]
      cases hnb : net b with
      | reply s q => exact absurd hnb (hb s q)
      | sendFailed => exact ih hbs
      | noReply => exact ih hbs
  refine ⟨?_, rfl, hfirst, fun hall => hnone broadcastAddresses hall⟩
  intro hping
  simp only [scanForLidar, List.filter_eq_nil_iff]
  intro ip hip
  simp [hping ip hip]

/-- Environment for the C7 witness: no candidate answers a ping. -/
def silentPing : String → Bool := fun _ => false

/-- Environment for the C7 witness: only the second broadcast address draws a
reply, from the device at 192.168.1.201. -/
def secondBroadcastReplies : String → BroadcastResult := fun a =>
  if a = "192.168.1.255" then BroadcastResult.reply "192.168.1.201" [0x47]
  else BroadcastResult.noReply

/-- C7 witness: with silent candidates the scan is empty, and broadcast
fallback discovers the replier of the second broadcast address. -/
theorem scanner_broadcast_fallback_witness :
    scanForLidar silentPing = [] ∧
      broadcastLoop secondBroadcastReplies
        (["255.255.255.255"] ++ "192.168.1.255" ::
          ["192.168.123.255", "192.168.0.255"]) = some "192.168.1.201" :=
  ⟨(scanner_broadcast_fallback silentPing secondBroadcastReplies).1
      (by intro ip _; rfl),
    (scanner_broadcast_fallback silentPing secondBroadcastReplies).2.2.1
      ["255.255.255.255"] "192.168.1.255" ["192.168.123.255", "192.168.0.255"]
      "192.168.1.201" [0x47]
      (by
        intro b hb s q
        fin_cases hb
        simp [secondBroadcastReplies])
      (by simp [secondBroadcastReplies])⟩

/- ## Orchestrator configuration validation
   (spec section 7; entry points src/projects/lidar_testing/quick_hesai_check.py,
    lines 23-51 and 106-149, hold their candidate list and timeouts as
    hardcoded literals and perform no validation themselves) -/

/-- The candidate list `test_ips` of `ping_hesai_addresses`. -/
def hesaiTestIps : List String :=
  ["192.168.1.201", "192.168.123.201", "192.168.0.201", "10.5.5.200"]

/-- Embedding of `ping_hesai_addresses` generalised over its candidate list:
ping each candidate and keep the responders; failures are skipped. -/
def pingAddresses (pingOk : String → Bool) (candidates : List String) :
    List String :=
  candidates.filter pingOk

/-- Configuration surface of the orchestrator per spec section 6. -/
structure OrchestratorConfig where
  candidates : List String
  timeoutMs : Int
  methods : List String

/-- The only fatal error class of spec section 7. -/
inductive OrchError where
  | InvalidConfiguration
deriving DecidableEq, Repr

/-- A network operation performed by the orchestrator, for tracing that
nothing runs before validation. -/
inductive NetOp where
  | ping (ip : String)
deriving DecidableEq, Repr

/-- Modelled from the spec: the source entry points (quick_hesai_check.py)
hardcode their candidate list, timeouts and method order and contain no
configuration validation, so the InvalidConfiguration gate of spec section 7
is modelled from the spec's words: an empty candidate list, a non-positive
timeout, or an empty method list is rejected as InvalidConfiguration before
any network operation; a valid configuration always proceeds to the scan
(here `pingAddresses`) and never fails. -/
def runOrchestrator (cfg : OrchestratorConfig) (pingOk : String → Bool) :
    List NetOp × Except OrchError (List String) :=
  if cfg.candidates = [] ∨ cfg.timeoutMs ≤ 0 ∨ cfg.methods = [] then
    ([], Except.error OrchError.InvalidConfiguration)
  else
    (cfg.candidates.map NetOp.ping,
      Except.ok (pingAddresses pingOk cfg.candidates))

/-- C8: the orchestrator rejects exactly the configurations with an empty
candidate list, a non-positive timeout, or an empty method list, and then
performs no network operation; every other configuration runs to a normal
result, so no other condition is fatal. -/
theorem orchestrator_invalid_config (cfg : OrchestratorConfig)
    (pingOk : String → Bool) :
    ((runOrchestrator cfg pingOk).2 = Except.error OrchError.InvalidConfiguration
        ↔ (cfg.candidates = [] ∨ cfg.timeoutMs ≤ 0 ∨ cfg.methods = [])) ∧
      ((cfg.candidates = [] ∨ cfg.timeoutMs ≤ 0 ∨ cfg.methods = []) →
        (runOrchestrator cfg pingOk).1 = []) := by
  unfold runOrchestrator
  by_cases h : cfg.candidates = [] ∨ cfg.timeoutMs ≤ 0 ∨ cfg.methods = []
  · rw [if_pos h]
    exact ⟨⟨fun _ => h, fun _ => rfl⟩, fun _ => rfl⟩
  · rw [if_neg h]
    refine ⟨⟨fun hc => ?_, fun hh => absurd hh h⟩, fun hh => absurd hh h⟩
    exact absurd hc (by simp)

/-- C8 witness: an empty candidate list is rejected as InvalidConfiguration
with an empty network-operation trace. -/
theorem orchestrator_invalid_config_witness :
    (runOrchestrator ⟨[], 1000, ["direct-udp"]⟩ silentPing).2
        = Except.error OrchError.InvalidConfiguration ∧
      (runOrchestrator ⟨[], 1000, ["direct-udp"]⟩ silentPing).1 = [] :=
  ⟨(orchestrator_invalid_config ⟨[], 1000, ["direct-udp"]⟩ silentPing).1.mpr
      (Or.inl rfl),
    (orchestrator_invalid_config ⟨[], 1000, ["direct-udp"]⟩ silentPing).2
      (Or.inl rfl)⟩
